import Mathlib

/-!
Verification of the PayPal CSV converter (`src/converters/paypal.py`) of the
`firefly_iii_imports` repository.

The Python source is shallowly embedded: rows become a structure holding the
four columns the converter reads (`Nome`, `Data`, `Importo`, `Tipo`); finite
`Decimal` values are embedded exactly as an integer coefficient together with
an integer exponent, mirroring the `decimal` module's own representation;
fallible Python code (a raised exception) is embedded as `Except String`.
All definitions are executable so that concrete inputs evaluate by
`rfl`/`decide`.
-/

namespace FireflyImports

/-- Embedding of Python `str.strip()`: drop leading and trailing whitespace
(space, tab, newline, carriage return, vertical tab, form feed). -/
def isPySpace (c : Char) : Bool :=
  c = ' ' || c = '\t' || c = '\n' || c = '\r' || c = '\x0b' || c = '\x0c'

/-- Python `str.strip()` on a string. -/
def pyStrip (s : String) : String :=
  String.mk (((s.data.dropWhile isPySpace).reverse.dropWhile isPySpace).reverse)

/-- Embedding of Python `str.lower()` restricted to ASCII letters.  The full
Unicode case map differs only on non-ASCII code points; every pattern of the
classifier below is pure ASCII. -/
def asciiLower (s : String) : String :=
  String.mk (s.data.map Char.toLower)

/-- Test whether the character list `p` is a leading segment of
`s`; it embeds Python `str.startswith`. -/
def matchAt : List Char → List Char → Bool
  | [], _ => true
  | _ :: _, [] => false
  | p :: ps, c :: cs => p = c && matchAt ps cs

/-- Test whether `p` occurs as a contiguous segment of the second list; it
embeds the Python substring test `p in s`. -/
def occursIn (p : List Char) : List Char → Bool
  | [] => matchAt p []
  | c :: cs => matchAt p (c :: cs) || occursIn p cs

/-- Accumulate a digit list into a natural number. -/
def digitsToNat (cs : List Char) : Nat :=
  cs.foldl (fun a c => 10 * a + (c.toNat - 48)) 0

/-- Parse the optional exponent tail of a Python decimal numeric string:
the empty tail denotes exponent 0; otherwise `e`/`E`, an optional sign and a
non-empty digit run must consume the whole remainder. -/
def parseExpTail (cs : List Char) : Option Int :=
  match cs with
  | [] => some 0
  | c :: rest =>
    if c = 'e' || c = 'E' then
      let sr : Int × List Char :=
        match rest with
        | '+' :: r => (1, r)
        | '-' :: r => (-1, r)
        | r => (1, r)
      let ds := sr.2.takeWhile Char.isDigit
      let tail := sr.2.dropWhile Char.isDigit
      if ds.isEmpty || !tail.isEmpty then none
      else some (sr.1 * (digitsToNat ds : Int))
    else none

/-- Embedding of a finite Python `Decimal` value: the signed coefficient `c`
and the exponent `e`, denoting `c * 10 ^ e` — exactly the representation the
`decimal` module uses (`Decimal("-33.67")` is `⟨-3367, -2⟩`,
`Decimal("1e3")` is `⟨1, 3⟩`).  The sign is merged into the coefficient, so
`Decimal` negative zero collapses to `⟨0, e⟩`; no claim input produces a
negative zero. -/
structure Dec where
  c : Int
  e : Int
deriving DecidableEq

/-- The `Decimal` zero. -/
def Dec.zero : Dec := ⟨0, 0⟩

/-- Decimal negation (`-d`): negate the coefficient, keep the exponent. -/
instance : Neg Dec := ⟨fun d => ⟨-d.c, d.e⟩⟩

/-- Embedding of the Python `Decimal(str)` constructor on finite numeric
strings: leading/trailing whitespace and all underscores are removed, then the
string must match `sign? (digits (. digits?)? | . digits) ([eE] sign? digits)?`
with ASCII digits; otherwise the constructor raises (`none` here).  The special
values `NaN`/`Infinity` accepted by Python are outside the finite embedding and
are mapped to `none`; no claim below evaluates the parser on them. -/
def pyDecimal (s : String) : Option Dec :=
  let t := pyStrip (String.mk (s.data.filter (fun c => c != '_')))
  let sgnCs : Int × List Char :=
    match t.data with
    | '+' :: r => (1, r)
    | '-' :: r => (-1, r)
    | r => (1, r)
  let sgn := sgnCs.1
  let cs := sgnCs.2
  let ip := cs.takeWhile Char.isDigit
  let cs1 := cs.dropWhile Char.isDigit
  match cs1 with
  | '.' :: r =>
    let fp := r.takeWhile Char.isDigit
    let cs2 := r.dropWhile Char.isDigit
    if ip.isEmpty && fp.isEmpty then none
    else
      match parseExpTail cs2 with
      | none => none
      | some e =>
        some ⟨sgn * ((digitsToNat ip * 10 ^ fp.length + digitsToNat fp : Nat) : Int),
          e - (fp.length : Int)⟩
  | _ =>
    if ip.isEmpty then none
    else
      match parseExpTail cs1 with
      | none => none
      | some e => some ⟨sgn * ((digitsToNat ip : Nat) : Int), e⟩

/-- The character whitelist of the fallback branch of `_parse_decimal_it`
(source line 45: `ch in "-+.0123456789"`). -/
def parseAllowedChars : List Char := "-+.0123456789".data

/-- Embedding of `_parse_decimal_it` (source lines 10-46).  `None` and
whitespace-only inputs yield 0; otherwise all periods are removed and commas
become periods (single-character `str.replace` embedded as filter/map), the
result is handed to `Decimal`; on failure every character outside
`-+.0123456789` is stripped and `Decimal` is retried on the remainder (`"0"`
when empty).  That second `Decimal` call is outside the `try`, so its failure
propagates as an exception (`Except.error`). -/
def _parse_decimal_it (value : Option String) : Except String Dec :=
  match value with
  | none => .ok Dec.zero
  | some v =>
    let s0 := pyStrip v
    if s0 = "" then .ok Dec.zero
    else
      let s := String.mk ((s0.data.filter (fun c => c != '.')).map
        (fun c => if c = ',' then '.' else c))
      match pyDecimal s with
      | some d => .ok d
      | none =>
        let filtered := String.mk (s.data.filter (fun c => parseAllowedChars.contains c))
        let f := if filtered = "" then "0" else filtered
        match pyDecimal f with
        | some d => .ok d
        | none => .error "decimal.InvalidOperation"

/-- Embedding of `_categorize_transaction` (source lines 49-153): the literal
`if/elif` chain of the source, on the lower-cased payee name; each branch
returns its category with an empty tag (the source initialises `tags = ""` and
only the final `else` assigns `"to_categorize"`). -/
def _categorize_transaction (name : String) : String × String :=
  let s := (asciiLower name).data
  if occursIn "ebay".data s then ("ebay", "")
  else if occursIn "39euroglasses".data s then ("lenti a contatto", "")
  else if occursIn "adrial".data s then ("lenti a contatto", "")
  else if occursIn "bbb s.p.a.".data s then ("Clothing", "")
  else if occursIn "bergfreunde".data s then ("Clothing", "")
  else if occursIn "capri srl".data s then ("Clothing", "")
  else if occursIn "colella group srl".data s then ("Clothing", "")
  else if occursIn "converse netherlands bv".data s then ("Clothing", "")
  else if occursIn "dagsmejan".data s then ("Clothing", "")
  else if occursIn "deporvillage".data s then ("Clothing", "")
  else if occursIn "farfetch uk ltd.".data s then ("Clothing", "")
  else if occursIn "fc-moto".data s then ("Clothing", "")
  else if occursIn "h & m hennes & mauritz srl".data s then ("Clothing", "")
  else if occursIn "kreuzbergkinder gmbh".data s then ("Clothing", "")
  else if occursIn "louis vuitton italia srl".data s then ("Clothing", "")
  else if occursIn "maltese lab srl".data s then ("Clothing", "")
  else if occursIn "booking.com bv".data s then ("Travel", "")
  else if occursIn "deliveroo".data s then ("Supermarkets and food", "")
  else if occursIn "euro company srl".data s then ("Supermarkets and food", "")
  else if occursIn "eurochef italia spa".data s then ("Supermarkets and food", "")
  else if occursIn "madi ventura s.p.a".data s then ("Supermarkets and food", "")
  else if occursIn "easypark italia srl".data s then ("Parking", "")
  else if occursIn "farmacia".data s then ("Prodotti farmacia e parafarmacia", "")
  else if occursIn "farmacie".data s then ("Prodotti farmacia e parafarmacia", "")
  else if occursIn "google".data s then ("Servizi Google", "")
  else if occursIn "microsoft payments".data s then ("Servizi Microsoft", "")
  else if occursIn "moonpay".data s then ("Crypto", "")
  else if occursIn "nespresso".data s then ("Supermarkets and food", "")
  else if occursIn "netflix".data s then ("Entertainment", "")
  else if occursIn "notino".data s then ("Personal care", "")
  else if occursIn "parkvia".data s then ("Parking", "")
  else if occursIn "sisal".data s then ("Scommesse", "")
  else if occursIn "sky italia".data s then ("Entertainment", "")
  else if occursIn "spotify".data s then ("Entertainment", "")
  else if occursIn "temu".data s then ("Temu", "")
  else if occursIn "tikr".data s then ("Financial Data", "")
  else if occursIn "tld registrar".data s then ("Domain Names", "")
  else if occursIn "namecheap".data s then ("Domain Names", "")
  else if occursIn "tradeinn".data s then ("Clothing", "")
  else if occursIn "unicorn data services".data s then ("Financial Data", "")
  else if occursIn "yoox".data s then ("Clothing", "")
  else if occursIn "zalando".data s then ("Clothing", "")
  else ("", "to_categorize")

/-- The `if/elif` chain of `_categorize_transaction` as an ordered
(pattern, category) rule table, in source order. -/
def classifierRules : List (String × String) :=
  [("ebay", "ebay"),
   ("39euroglasses", "lenti a contatto"),
   ("adrial", "lenti a contatto"),
   ("bbb s.p.a.", "Clothing"),
   ("bergfreunde", "Clothing"),
   ("capri srl", "Clothing"),
   ("colella group srl", "Clothing"),
   ("converse netherlands bv", "Clothing"),
   ("dagsmejan", "Clothing"),
   ("deporvillage", "Clothing"),
   ("farfetch uk ltd.", "Clothing"),
   ("fc-moto", "Clothing"),
   ("h & m hennes & mauritz srl", "Clothing"),
   ("kreuzbergkinder gmbh", "Clothing"),
   ("louis vuitton italia srl", "Clothing"),
   ("maltese lab srl", "Clothing"),
   ("booking.com bv", "Travel"),
   ("deliveroo", "Supermarkets and food"),
   ("euro company srl", "Supermarkets and food"),
   ("eurochef italia spa", "Supermarkets and food"),
   ("madi ventura s.p.a", "Supermarkets and food"),
   ("easypark italia srl", "Parking"),
   ("farmacia", "Prodotti farmacia e parafarmacia"),
   ("farmacie", "Prodotti farmacia e parafarmacia"),
   ("google", "Servizi Google"),
   ("microsoft payments", "Servizi Microsoft"),
   ("moonpay", "Crypto"),
   ("nespresso", "Supermarkets and food"),
   ("netflix", "Entertainment"),
   ("notino", "Personal care"),
   ("parkvia", "Parking"),
   ("sisal", "Scommesse"),
   ("sky italia", "Entertainment"),
   ("spotify", "Entertainment"),
   ("temu", "Temu"),
   ("tikr", "Financial Data"),
   ("tld registrar", "Domain Names"),
   ("namecheap", "Domain Names"),
   ("tradeinn", "Clothing"),
   ("unicorn data services", "Financial Data"),
   ("yoox", "Clothing"),
   ("zalando", "Clothing")]

/-- First rule of an ordered rule table whose pattern occurs in the character
list `s`. -/
def findRule (s : List Char) : List (String × String) → Option (String × String)
  | [] => none
  | r :: rs => if occursIn r.1.data s then some r else findRule s rs

/-- The (category, tag) pair determined by an ordered rule table: the earliest
matching rule's category with an empty tag, or the fallback
`("", "to_categorize")` when no rule matches. -/
def catOf (s : List Char) (rs : List (String × String)) : String × String :=
  match findRule s rs with
  | none => ("", "to_categorize")
  | some r => (r.2, "")

/-- An input CSV row, restricted to the four columns the converter reads.
`csv.DictReader` yields a dict; the source reads every column through
`(row.get(key) or "")`, so an absent or `None` column and the empty string are
indistinguishable — the fields here carry the already-defaulted string. -/
structure Row where
  nome : String
  data : String
  importo : String
  tipo : String
deriving DecidableEq

/-- A produced output record: the literal dict built at source lines 268-278,
kept as an ordered association list of (column, value). -/
abbrev OutRow : Type := List (String × String)

/-- The raw `paypal` section of the configuration: the three keys the source
reads, each possibly absent.  `positive_is_withdrawal` is typed `Option Bool`;
the source's `isinstance(..., bool)` check can therefore never fire in the
embedding (a present value is always a boolean). -/
structure RawPaypalSection where
  source_account : Option String
  output_columns : Option (List String)
  positive_is_withdrawal : Option Bool
deriving DecidableEq

/-- The raw top-level configuration: the `paypal` section, possibly absent. -/
structure RawConfig where
  paypal : Option RawPaypalSection
deriving DecidableEq

/-- The configuration data the row-processing phase actually uses.  The source
also computes `positive_is_withdrawal` (line 213, defaulting to `True`) but
never reads it afterwards, so it is not carried here. -/
structure ValidCfg where
  source_account : String
  fieldnames : List String
deriving DecidableEq

/-- Source lines 207-211: force-append `category` and `tags` to the configured
output columns when absent. -/
def outputFieldnames (cols : List String) : List String :=
  let c1 := if cols.contains "category" then cols else cols ++ ["category"]
  if c1.contains "tags" then c1 else c1 ++ ["tags"]

/-- Embedding of the configuration-validation prologue of
`convert_paypal_csv_to_firefly` (source lines 188-215): missing `paypal`
section, missing `source_account`/`output_columns` keys and an empty column
list each raise `ValueError` with the source's message (the two-key
`missing_keys` loop is expanded into the four presence cases).
`positive_is_withdrawal` is only read with a default (line 213) and
type-checked; it is not required and is never used afterwards. -/
def validatePaypalConfig (config : RawConfig) : Except String ValidCfg :=
  match config.paypal with
  | none => .error "Missing 'paypal' section in configuration."
  | some pc =>
    match pc.source_account, pc.output_columns with
    | none, none => .error "Missing required PayPal configuration keys: source_account, output_columns"
    | none, some _ => .error "Missing required PayPal configuration keys: source_account"
    | some _, none => .error "Missing required PayPal configuration keys: output_columns"
    | some sa, some cols =>
      if cols = [] then .error "'paypal.output_columns' must be a non-empty list."
      else .ok ⟨sa, outputFieldnames cols⟩

/-- The currency-conversion marker of source line 284. -/
def convMarker : String := "Conversione di valuta generica"

/-- Does a row's stripped `Tipo` field start with the conversion marker
(source lines 283-284)? -/
def isConvRow (r : Row) : Bool :=
  matchAt convMarker.data (pyStrip r.tipo).data

/-- The inner `while` of source lines 282-288: from the current cursor, keep
consuming rows whose `Nome` is blank and whose `Tipo` starts with the
conversion marker; stop (without consuming) at the first blank-`Nome` row that
is not a conversion marker, or at the first row with a non-blank `Nome`. -/
def skipConv : List Row → List Row
  | [] => []
  | r :: rest =>
    if pyStrip r.nome = "" then
      if isConvRow r then skipConv rest else r :: rest
    else r :: rest

/-- Quotient `c / d` (`d > 0`) rounded to the nearest
integer, ties to even — the integer core of `decimal.ROUND_HALF_EVEN`. -/
def roundHalfEvenDiv (c d : Int) : Int :=
  let q0 := Int.fdiv c d
  let r := c - q0 * d
  if 2 * r < d then q0
  else if d < 2 * r then q0 + 1
  else if q0 % 2 = 0 then q0 else q0 + 1

/-- Embedding of `Decimal.quantize(Decimal("0.01"), rounding=ROUND_HALF_EVEN)`
(source line 260): rescale to exponent `-2`, rounding half to even when digits
are dropped.  (Python additionally raises when the rescaled coefficient
exceeds the context precision of 28 digits; amounts that large do not occur in
any claim.) -/
def quantize2 (d : Dec) : Dec :=
  if -2 ≤ d.e then ⟨d.c * 10 ^ (d.e + 2).toNat, -2⟩
  else ⟨roundHalfEvenDiv d.c ((10 ^ (-(d.e + 2)).toNat : Nat) : Int), -2⟩

/-- Embedding of `format(d, "f")` on a value quantized to exponent `-2`:
fixed-point rendering with exactly two fractional digits.  (`Decimal`
negative zero, which Python would print as `-0.00`, collapses to plain zero
in `Dec`; no claim input produces it.) -/
def formatF (d : Dec) : String :=
  let n := d.c
  let a := n.natAbs
  (if n < 0 then "-" else "") ++ toString (a / 100) ++ "."
    ++ (if a % 100 < 10 then "0" else "") ++ toString (a % 100)

/-- Build one output record (source lines 253-278) from the header row and the
data row (`row_data` is the paired accounting row, or the header itself when
unpaired).  Both source branches set `negate = True`, so the parsed amount is
always negated, then quantized to 2 decimals with round-half-to-even and
rendered in fixed-point.  A parse exception propagates. -/
def mkOut (cfg : ValidCfg) (header rowData : Row) : Except String OutRow :=
  let name := pyStrip header.nome
  let dateStr := pyStrip rowData.data
  let amountRaw := pyStrip rowData.importo
  match _parse_decimal_it (some amountRaw) with
  | .error e => .error e
  | .ok amountVal =>
    let amountOut := quantize2 (-amountVal)
    let ct := _categorize_transaction name
    .ok [("date_transaction", dateStr),
         ("description", name),
         ("amount", formatF amountOut),
         ("account-name", cfg.source_account),
         ("opposing-name", name),
         ("category", ct.1),
         ("tags", ct.2)]

/-- Fuel-indexed embedding of the outer `while` loop of source lines 228-288;
the fuel is provisioned as the row count, and every iteration advances the
cursor by at least one row, so the `0, _ :: _` case is never reached from
`processRows`.  Branches: blank-`Nome` rows are skipped as filler; a header
followed by a blank-`Nome` row pairs with it; a header followed by another
header (or by nothing) is used as its own data row; after emitting a record
the conversion-marker scan `skipConv` consumes trailing conversion rows. -/
def processRowsF (cfg : ValidCfg) : Nat → List Row → Except String (List OutRow)
  | _, [] => .ok []
  | 0, _ :: _ => .ok []
  | fuel + 1, row :: rest =>
    if pyStrip row.nome = "" then processRowsF cfg fuel rest
    else
      match rest with
      | [] =>
        match mkOut cfg row row with
        | .error e => .error e
        | .ok o =>
          match processRowsF cfg fuel (skipConv []) with
          | .error e => .error e
          | .ok os => .ok (o :: os)
      | nxt :: rest2 =>
        if pyStrip nxt.nome = "" then
          match mkOut cfg row nxt with
          | .error e => .error e
          | .ok o =>
            match processRowsF cfg fuel (skipConv rest2) with
            | .error e => .error e
            | .ok os => .ok (o :: os)
        else
          match mkOut cfg row row with
          | .error e => .error e
          | .ok o =>
            match processRowsF cfg fuel (skipConv rest) with
            | .error e => .error e
            | .ok os => .ok (o :: os)

/-- The outer `while` loop of source lines 228-288 on a full row list. -/
def processRows (cfg : ValidCfg) (rows : List Row) : Except String (List OutRow) :=
  processRowsF cfg rows.length rows

/-- Embedding of `csv.DictWriter.writerows` (source line 294): each record is
rendered in fieldname order, absent keys becoming the empty string (`restval`);
a record holding a key outside the fieldnames raises `ValueError`
(`extrasaction="raise"`, the default). -/
def writeRows (fields : List String) : List OutRow → Except String (List (List String))
  | [] => .ok []
  | r :: rs =>
    if r.all (fun kv => fields.contains kv.1) then
      match writeRows fields rs with
      | .error e => .error e
      | .ok tbl => .ok ((fields.map (fun f => (List.lookup f r).getD "")) :: tbl)
    else .error "ValueError: dict contains fields not in fieldnames"

/-- The full result of one conversion run: the written header row (the
fieldnames of `writeheader`, line 293), the written data rows, the in-memory
output records, and the returned orphan list (source line 296 — always `[]`,
as the docstring at line 173 states). -/
structure ConvertResult where
  header : List String
  table : List (List String)
  out_rows : List OutRow
  orphans : List (Nat × String)
deriving DecidableEq

/-- Embedding of `convert_paypal_csv_to_firefly` (source lines 156-296):
validate the configuration, run the grouping/materialization loop over the
already-materialized row list, write the output, and return the empty orphan
list.  File I/O (paths, BOM decoding) is outside the embedding: the function
receives the parsed row list directly. -/
def convert_paypal_csv_to_firefly (config : RawConfig) (rows : List Row) :
    Except String ConvertResult :=
  match validatePaypalConfig config with
  | .error e => .error e
  | .ok cfg =>
    match processRows cfg rows with
    | .error e => .error e
    | .ok outs =>
      match writeRows cfg.fieldnames outs with
      | .error e => .error e
      | .ok table => .ok ⟨cfg.fieldnames, table, outs, []⟩

/-- The rules of the classifier table strictly before the `netflix` rule. -/
def preNetflixRules : List (String × String) :=
  classifierRules.takeWhile (fun r => r.1 != "netflix")

/-- The rules of the classifier table strictly after the `netflix` rule. -/
def postNetflixRules : List (String × String) :=
  (classifierRules.dropWhile (fun r => r.1 != "netflix")).tail

/-- Returns `true` exactly on `Except.error` — "the call raised". -/
def raised {α : Type} (x : Except String α) : Bool :=
  match x with
  | .error _ => true
  | .ok _ => false

/-- An output column list naming exactly the seven keys of the produced
record dict, used by the concrete runs below. -/
def stdCols : List String :=
  ["date_transaction", "description", "amount", "account-name",
   "opposing-name", "category", "tags"]

/-- A complete concrete configuration with `positive_is_withdrawal = true`. -/
def cfgStd : RawConfig := ⟨some ⟨some "PayPal", some stdCols, some true⟩⟩

/-- The validated form of `cfgStd`. -/
def vcfgStd : ValidCfg := ⟨"PayPal", stdCols⟩

/-- The two-row input of the spec's end-to-end scenario (§8). -/
def rowsScenario : List Row :=
  [⟨"Shop A", "", "", ""⟩, ⟨"", "01/01/2024", "-33,67", ""⟩]

/-- Two consecutive header rows (both with non-empty `Nome`). -/
def rowsTwoHeaders : List Row := [⟨"A", "", "", ""⟩, ⟨"B", "", "", ""⟩]

/-- The record the converter produces for `rowsScenario`. -/
def outRowScenario : OutRow :=
  [("date_transaction", "01/01/2024"),
   ("description", "Shop A"),
   ("amount", "33.67"),
   ("account-name", "PayPal"),
   ("opposing-name", "Shop A"),
   ("category", ""),
   ("tags", "to_categorize")]

section Theorems

/-- The classifier table applied to the empty rule list yields the fallback. -/
theorem catOf_nil (s : List Char) : catOf s [] = ("", "to_categorize") := rfl

/-- One step of first-match rule lookup. -/
theorem findRule_cons (s : List Char) (r : String × String) (rs : List (String × String)) :
    findRule s (r :: rs) = if occursIn r.1.data s then some r else findRule s rs := rfl

/-- One step of the ordered rule table: the head rule fires if its pattern
occurs, otherwise the tail decides. -/
theorem catOf_cons (s : List Char) (r : String × String) (rs : List (String × String)) :
    catOf s (r :: rs) = if occursIn r.1.data s then (r.2, "") else catOf s rs := by
  unfold catOf
  rw [findRule_cons]
  cases h : occursIn r.1.data s <;> simp [h]

/-- The source's `if/elif` chain agrees with first-match lookup in the ordered
rule table `classifierRules`. -/
theorem chain_eq_catOf (name : String) :
    _categorize_transaction name = catOf (asciiLower name).data classifierRules := by
  simp only [classifierRules, catOf_cons, catOf_nil]
  rfl

/-- Rules none of which match can be discarded from the front of the table. -/
theorem findRule_append (s : List Char) (rs1 rs2 : List (String × String))
    (h : ∀ r ∈ rs1, occursIn r.1.data s = false) :
    findRule s (rs1 ++ rs2) = findRule s rs2 := by
  induction rs1 with
  | nil => rfl
  | cons a as ih =>
    rw [List.cons_append, findRule_cons]
    rw [h a (List.mem_cons_self a as)]
    simp only [Bool.false_eq_true, if_false]
    exact ih (fun r hr => h r (List.mem_cons_of_mem a hr))

/-- Claim C2 (code_bug evidence): the amount parser raises on the input
`"-"`.  The first `Decimal` call fails, the fallback keeps only `-`, and the
second `Decimal` call — outside the `try` — raises `InvalidOperation`,
contradicting the claim (and the function's own docstring, lines 21-22, which
promise `Decimal("0")` for invalid inputs). -/
theorem parse_decimal_raises_on_dash :
    _parse_decimal_it (some "-") = .error "decimal.InvalidOperation" := rfl

/-- Claim C7: the locale rule maps `"-33,67"` to `-33.67` (the decimal
`⟨-3367, -2⟩`), `"1.234,56"` to `1234.56` (`⟨123456, -2⟩`), `""` to `0`,
`None` to `0`, and `"abc-12,5xyz"` to `-12.5` (`⟨-125, -1⟩`). -/
theorem parse_decimal_examples :
    _parse_decimal_it (some "-33,67") = .ok ⟨-3367, -2⟩
    ∧ _parse_decimal_it (some "1.234,56") = .ok ⟨123456, -2⟩
    ∧ _parse_decimal_it (some "") = .ok Dec.zero
    ∧ _parse_decimal_it none = .ok Dec.zero
    ∧ _parse_decimal_it (some "abc-12,5xyz") = .ok ⟨-125, -1⟩ :=
  ⟨rfl, rfl, rfl, rfl, rfl⟩

/-- Claim C9: the classifier returns the fallback `("", "to_categorize")`
exactly when no pattern of the ordered table occurs in the case-folded
description, and otherwise the category of the earliest matching rule in list
order with an empty tag. -/
theorem classifier_first_match_wins (name : String) :
    _categorize_transaction name =
      match findRule (asciiLower name).data classifierRules with
      | none => ("", "to_categorize")
      | some r => (r.2, "") :=
  chain_eq_catOf name

/-- Claim C6 (counterexample): the description `"ebay Netflix"` contains
`"netflix"` case-insensitively, yet the classifier returns category `"ebay"`
(the earlier `ebay` rule wins), not `"Entertainment"`. -/
theorem netflix_claim_counterexample :
    occursIn "netflix".data (asciiLower "ebay Netflix").data = true
    ∧ _categorize_transaction "ebay Netflix" = ("ebay", "")
    ∧ (_categorize_transaction "ebay Netflix").1 ≠ "Entertainment" :=
  ⟨by decide, by decide, by decide⟩

/-- Claim C6 (amended): a description containing `"netflix"` in any letter
case, and matching none of the rules listed before the `netflix` rule, is
categorized `"Entertainment"`. -/
theorem netflix_yields_entertainment (name : String)
    (h1 : occursIn "netflix".data (asciiLower name).data = true)
    (h2 : ∀ r ∈ preNetflixRules, occursIn r.1.data (asciiLower name).data = false) :
    _categorize_transaction name = ("Entertainment", "") := by
  rw [chain_eq_catOf name]
  unfold catOf
  have hsplit : classifierRules
      = preNetflixRules ++ ("netflix", "Entertainment") :: postNetflixRules := by rfl
  rw [hsplit, findRule_append _ _ _ h2]
  unfold findRule
  rw [h1]
  rfl

/-- Witness for the amended claim C6 at the concrete description
`"NetFlix"`. -/
theorem netflix_yields_entertainment_witness :
    _categorize_transaction "NetFlix" = ("Entertainment", "") :=
  netflix_yields_entertainment "NetFlix" (by decide) (by decide)

/-- A row with non-blank `Nome` stops the conversion-consuming scan. -/
theorem skipConv_cons_header (r : Row) (l : List Row) (h : ¬ pyStrip r.nome = "") :
    skipConv (r :: l) = r :: l := by
  simp only [skipConv]
  rw [if_neg h]

/-- A blank-`Nome` conversion-marker row is consumed by the scan. -/
theorem skipConv_cons_conv (r : Row) (l : List Row) (h1 : pyStrip r.nome = "")
    (h2 : isConvRow r = true) : skipConv (r :: l) = skipConv l := by
  simp only [skipConv]
  rw [if_pos h1, if_pos h2]

/-- A blank-`Nome` row that is not a conversion marker stops the scan without
being consumed. -/
theorem skipConv_cons_stop (r : Row) (l : List Row) (h1 : pyStrip r.nome = "")
    (h2 : isConvRow r = false) : skipConv (r :: l) = r :: l := by
  simp only [skipConv]
  rw [if_pos h1, h2]
  simp

/-- Decomposition of a successful conversion run into its phases; in
particular the orphan list of the result is the literal `[]` of source
line 296. -/
theorem convert_ok_parts (config : RawConfig) (rows : List Row) (res : ConvertResult)
    (h : convert_paypal_csv_to_firefly config rows = .ok res) :
    ∃ cfg outs table, validatePaypalConfig config = .ok cfg
      ∧ processRows cfg rows = .ok outs
      ∧ writeRows cfg.fieldnames outs = .ok table
      ∧ res = ⟨cfg.fieldnames, table, outs, []⟩ := by
  unfold convert_paypal_csv_to_firefly at h
  split at h
  next e hv => simp at h
  next cfg hv =>
    split at h
    next e hp => simp at h
    next outs hp =>
      split at h
      next e hw => simp at h
      next table hw =>
        cases h
        exact ⟨cfg, outs, table, hv, hp, hw, rfl⟩

/-- Claim C1 (counterexample): on two consecutive header rows `A`, `B` the
converter returns an empty orphan list (so row 1 and name `"A"` are not
reported) and emits two transactions, the first of them for the header `A` —
the claim's "records the first header as an orphan" and "emits no
CanonicalTransaction for it" both fail. -/
theorem two_headers_counterexample :
    (convert_paypal_csv_to_firefly cfgStd rowsTwoHeaders).map
      (fun r => (r.orphans, r.out_rows.length,
        r.out_rows.map (fun row => (List.lookup "description" row).getD "")))
      = .ok ([], 2, ["A", "B"]) := rfl

/-- One loop iteration on a header row followed by another header row: the
first header is materialized from its own fields (the unpaired branch, source
lines 246-251), and the scan resumes at the second header. -/
theorem processRowsF_unpaired_step (cfg : ValidCfg) (fuel : Nat) (r1 r2 : Row)
    (rest : List Row) (h1 : ¬ pyStrip r1.nome = "") (h2 : ¬ pyStrip r2.nome = "") :
    processRowsF cfg (fuel + 1) (r1 :: r2 :: rest) =
      (match mkOut cfg r1 r1 with
       | .error e => .error e
       | .ok o =>
         match processRowsF cfg fuel (skipConv (r2 :: rest)) with
         | .error e => .error e
         | .ok os => .ok (o :: os)) := by
  simp only [processRowsF]
  rw [if_neg h1, if_neg h2]

/-- Claim C1 (amended): on two consecutive header rows the first header is
materialized as a single-row transaction from its own fields, the second
header is then evaluated independently as its own potential group start, and
no orphan is recorded — the orphan list of every successful run is empty. -/
theorem unpaired_header_emits_own_transaction (cfg : ValidCfg) (r1 r2 : Row)
    (rest : List Row) (config : RawConfig) (rows : List Row) (res : ConvertResult)
    (h1 : ¬ pyStrip r1.nome = "") (h2 : ¬ pyStrip r2.nome = "")
    (hok : convert_paypal_csv_to_firefly config rows = .ok res) :
    processRows cfg (r1 :: r2 :: rest) =
      (match mkOut cfg r1 r1 with
       | .error e => .error e
       | .ok o =>
         match processRows cfg (r2 :: rest) with
         | .error e => .error e
         | .ok os => .ok (o :: os))
    ∧ res.orphans = [] := by
  constructor
  · show processRowsF cfg (rest.length + 1 + 1) (r1 :: r2 :: rest) = _
    rw [processRowsF_unpaired_step cfg (rest.length + 1) r1 r2 rest h1 h2]
    rw [skipConv_cons_header r2 rest h2]
    rfl
  · obtain ⟨cfg', outs, table, _, _, _, hres⟩ := convert_ok_parts config rows res hok
    rw [hres]

/-- Witness for the amended claim C1 at concrete rows `A`, `B`. -/
theorem unpaired_header_witness :
    processRows vcfgStd ((⟨"A", "", "", ""⟩ : Row) :: (⟨"B", "", "", ""⟩ : Row) :: []) =
      (match mkOut vcfgStd ⟨"A", "", "", ""⟩ ⟨"A", "", "", ""⟩ with
       | .error e => .error e
       | .ok o =>
         match processRows vcfgStd ((⟨"B", "", "", ""⟩ : Row) :: []) with
         | .error e => .error e
         | .ok os => .ok (o :: os))
    ∧ (⟨stdCols, [], [], []⟩ : ConvertResult).orphans = [] :=
  unpaired_header_emits_own_transaction vcfgStd ⟨"A", "", "", ""⟩ ⟨"B", "", "", ""⟩ []
    cfgStd [] ⟨stdCols, [], [], []⟩ (by decide) (by decide) rfl

/-- Claim C3 (counterexample): the end-to-end scenario produces exactly one
transaction, but no field of it is named `direction` and no field holds the
value `deposit` — the output record has no transaction-direction field at all
(`positive_is_withdrawal` is never used after validation). -/
theorem scenario_no_direction_field :
    (convert_paypal_csv_to_firefly cfgStd rowsScenario).map
      (fun r => (r.out_rows.length,
        r.out_rows.all (fun row => row.all
          (fun kv => !(kv.1 == "direction") && !(kv.2 == "deposit")))))
      = .ok (1, true) := rfl

/-- Claim C3 (amended): the scenario input under `positive_is_withdrawal =
true` yields exactly one transaction with description `"Shop A"`, amount
`33.67`, the classifier fallback category/tag for `"Shop A"`, and no
direction field (the produced columns are exactly the seven of
`outRowScenario`). -/
theorem scenario_output :
    convert_paypal_csv_to_firefly cfgStd rowsScenario =
      .ok ⟨stdCols,
        [["01/01/2024", "Shop A", "33.67", "PayPal", "Shop A", "", "to_categorize"]],
        [outRowScenario], []⟩ := rfl

/-- The fieldname adjustment appends exactly the missing forced columns. -/
theorem outputFieldnames_eq (cols : List String) :
    outputFieldnames cols = cols ++ (if "category" ∈ cols then [] else ["category"])
      ++ (if "tags" ∈ cols then [] else ["tags"]) := by
  unfold outputFieldnames
  by_cases hc : "category" ∈ cols <;> by_cases ht : "tags" ∈ cols <;>
    simp [hc, ht]

/-- Claim C4 (counterexample): with configured output columns `["data"]` the
written header is `["data", "category", "tags"]`, not the configured list —
the forced `category`/`tags` columns are added. -/
theorem output_columns_augmented :
    convert_paypal_csv_to_firefly ⟨some ⟨some "PayPal", some ["data"], some true⟩⟩ []
      = .ok ⟨["data", "category", "tags"], [], [], []⟩
    ∧ (["data", "category", "tags"] : List String) ≠ ["data"] :=
  ⟨rfl, by decide⟩

/-- Claim C4 (amended): the column list of the written output equals the
configured list, in order, extended by `category` and then `tags` when they
are not already present. -/
theorem written_columns (pc : RawPaypalSection) (sa : String) (cols : List String)
    (rows : List Row) (res : ConvertResult)
    (h1 : pc.source_account = some sa) (h2 : pc.output_columns = some cols)
    (h3 : convert_paypal_csv_to_firefly ⟨some pc⟩ rows = .ok res) :
    res.header = cols ++ (if "category" ∈ cols then [] else ["category"])
      ++ (if "tags" ∈ cols then [] else ["tags"]) := by
  obtain ⟨cfg, outs, table, hv, _, _, hres⟩ := convert_ok_parts _ rows res h3
  unfold validatePaypalConfig at hv
  simp only [h1, h2] at hv
  by_cases hc : cols = []
  · rw [if_pos hc] at hv
    simp at hv
  · rw [if_neg hc] at hv
    cases hv
    rw [hres]
    exact outputFieldnames_eq cols

/-- Witness for the amended claim C4: configured columns `["data"]` yield the
header `["data", "category", "tags"]`. -/
theorem written_columns_witness :
    (⟨["data", "category", "tags"], [], [], []⟩ : ConvertResult).header
      = ["data"] ++ (if "category" ∈ (["data"] : List String) then [] else ["category"])
        ++ (if "tags" ∈ (["data"] : List String) then [] else ["tags"]) :=
  written_columns ⟨some "PayPal", some ["data"], some true⟩ "PayPal" ["data"] []
    ⟨["data", "category", "tags"], [], [], []⟩ rfl rfl rfl

/-- Claim C5 (counterexample): a configuration carrying `source_account` and
`output_columns` but no `positive_is_withdrawal` raises nothing — the run
succeeds, because only `source_account` and `output_columns` are required
(the flag is read with a default at source line 213). -/
theorem missing_flag_not_error :
    ((⟨some ⟨some "PayPal", some stdCols, none⟩⟩ : RawConfig).paypal.bind
        (fun pc => pc.positive_is_withdrawal)) = none
    ∧ convert_paypal_csv_to_firefly ⟨some ⟨some "PayPal", some stdCols, none⟩⟩ []
      = .ok ⟨stdCols, [], [], []⟩ :=
  ⟨rfl, rfl⟩

/-- Claim C5 (amended): when the `paypal` section, its `source_account` key,
or its `output_columns` key is missing, the converter raises a configuration
error without reading any row: the run fails and its outcome is the same for
every row list. -/
theorem missing_required_key_fatal (config : RawConfig) (rows : List Row)
    (h : config.paypal = none
      ∨ ∃ pc, config.paypal = some pc
          ∧ (pc.source_account = none ∨ pc.output_columns = none)) :
    raised (convert_paypal_csv_to_firefly config rows) = true
    ∧ convert_paypal_csv_to_firefly config rows
      = convert_paypal_csv_to_firefly config [] := by
  rcases h with hnone | ⟨pc, hpc, hkey⟩
  · constructor <;>
      simp [convert_paypal_csv_to_firefly, validatePaypalConfig, hnone, raised]
  · rcases hkey with hsa | hoc
    · cases hoc' : pc.output_columns <;> constructor <;>
        simp [convert_paypal_csv_to_firefly, validatePaypalConfig, hpc, hsa, hoc', raised]
    · cases hsa' : pc.source_account <;> constructor <;>
        simp [convert_paypal_csv_to_firefly, validatePaypalConfig, hpc, hoc, hsa', raised]

/-- Witness for the amended claim C5: `source_account` missing. -/
theorem missing_required_key_fatal_witness :
    raised (convert_paypal_csv_to_firefly ⟨some ⟨none, some ["x"], none⟩⟩
        [⟨"A", "", "", ""⟩]) = true
    ∧ convert_paypal_csv_to_firefly ⟨some ⟨none, some ["x"], none⟩⟩ [⟨"A", "", "", ""⟩]
      = convert_paypal_csv_to_firefly ⟨some ⟨none, some ["x"], none⟩⟩ [] :=
  missing_required_key_fatal ⟨some ⟨none, some ["x"], none⟩⟩ [⟨"A", "", "", ""⟩]
    (Or.inr ⟨⟨none, some ["x"], none⟩, rfl, Or.inl rfl⟩)

/-- Claim C8: a header row, its paired accounting row and two blank-`Nome`
conversion-marker rows are consumed as one group producing exactly one
record; and the scan stops, without consuming it, at the first blank-`Nome`
row that is not a conversion marker. -/
theorem conversion_widening (cfg : ValidCfg) (rh ra rc1 rc2 rr : Row) (rest : List Row)
    (hh : ¬ pyStrip rh.nome = "") (ha : pyStrip ra.nome = "")
    (hc1e : pyStrip rc1.nome = "") (hc1t : isConvRow rc1 = true)
    (hc2e : pyStrip rc2.nome = "") (hc2t : isConvRow rc2 = true)
    (hre : pyStrip rr.nome = "") (hrt : isConvRow rr = false) :
    processRows cfg [rh, ra, rc1, rc2] =
      (match mkOut cfg rh ra with
       | .error e => .error e
       | .ok o => .ok [o])
    ∧ skipConv (rr :: rest) = rr :: rest := by
  constructor
  · have hsc : skipConv [rc1, rc2] = [] := by
      rw [skipConv_cons_conv rc1 [rc2] hc1e hc1t, skipConv_cons_conv rc2 [] hc2e hc2t]
      rfl
    simp only [processRows, List.length_cons, List.length_nil]
    simp only [processRowsF, if_neg hh, if_pos ha, hsc]
  · exact skipConv_cons_stop rr rest hre hrt

/-- Witness for claim C8 at a concrete 4-row group and stop row. -/
theorem conversion_widening_witness :
    processRows vcfgStd [⟨"Shop", "", "", ""⟩, ⟨"", "01/01/2024", "-33,67", ""⟩,
        ⟨"", "", "", "Conversione di valuta generica in EUR"⟩,
        ⟨"", "", "", "Conversione di valuta generica in USD"⟩] =
      (match mkOut vcfgStd ⟨"Shop", "", "", ""⟩ ⟨"", "01/01/2024", "-33,67", ""⟩ with
       | .error e => .error e
       | .ok o => .ok [o])
    ∧ skipConv [⟨"", "", "", "Pagamento"⟩] = [⟨"", "", "", "Pagamento"⟩] :=
  conversion_widening vcfgStd ⟨"Shop", "", "", ""⟩ ⟨"", "01/01/2024", "-33,67", ""⟩
    ⟨"", "", "", "Conversione di valuta generica in EUR"⟩
    ⟨"", "", "", "Conversione di valuta generica in USD"⟩
    ⟨"", "", "", "Pagamento"⟩ []
    (by decide) (by decide) (by decide) (by decide) (by decide) (by decide)
    (by decide) (by decide)

/-- Claim C10: flipping `positive_is_withdrawal` between `true` and `false`
changes nothing observable: the converter's full result (written header and
rows, records, orphan list, or error) is identical, because the flag is read
and type-checked at source lines 213-215 but never used afterwards. -/
theorem flag_has_no_effect (sec : RawPaypalSection) (rows : List Row) :
    convert_paypal_csv_to_firefly ⟨some { sec with positive_is_withdrawal := some true }⟩ rows
    = convert_paypal_csv_to_firefly ⟨some { sec with positive_is_withdrawal := some false }⟩ rows := by
  obtain ⟨sa, oc, fl⟩ := sec
  rfl

end Theorems

end FireflyImports
